import Mathlib

/-!
Verification of the credibility-scoring and vote-aggregation core of the
repository: the class `StoryDetectionService` in
`src/services/storyDetection.ts` and the `handleVote` flow of the component
`src/components/CollaborativeFactChecking.tsx`.

Modelling conventions.  JavaScript numbers are embedded as `ℚ`.  The single
place where the source can produce a non-finite number — the vote ratio
`credible / total` when `total` is `0`, which yields `NaN` in JavaScript —
is embedded as `Option ℚ`, with `none` standing for the non-finite result.
`Math.round x` is `⌊x + 1/2⌋` (JavaScript rounds halves toward positive
infinity; all rounded values here are nonnegative, so the negative-zero
corner never arises).  Vote counters are `ℤ`: the failure branch of
`handleVote` decrements them unconditionally and JavaScript integers go
below zero freely, so `ℕ` truncation would misrepresent the source.
React state updates done through functional `setX` updaters are applied
sequentially to an explicit state record; a variable read from the closure
(such as `stories` inside `handleVote`) reads the pre-call snapshot, exactly
as a render-captured `useState` value does.
-/

inductive VerificationStatus where
  | fake
  | real
  | unverified
  | investigating
  | debunked
deriving DecidableEq

/-- String interpolation of a verification status, as in the template
literal producing the evidence line. -/
def statusStr : VerificationStatus → String
  | .fake => "fake"
  | .real => "real"
  | .unverified => "unverified"
  | .investigating => "investigating"
  | .debunked => "debunked"

inductive VoteType where
  | credible
  | suspicious
  | fake
deriving DecidableEq

structure Votes where
  credible : ℤ
  suspicious : ℤ
  fake : ℤ
deriving DecidableEq

structure Factor where
  name : String
  score : Option ℚ
  description : String
deriving DecidableEq

structure Explanation where
  factors : List Factor
  evidence : List String
  conclusion : String
deriving DecidableEq

/-- The `Story` interface of `storyDetection.ts` (lines 1-27). -/
structure Story where
  id : String
  title : String
  description : String
  spread : ℚ
  confidence : ℚ
  region : String
  coordinates : ℚ × ℚ
  sources : List String
  verificationStatus : VerificationStatus
  dateDetected : String
  votes : Votes
  category : String
  explanation : Option Explanation
deriving DecidableEq

/-- The `AnalysisResult` interface of `storyDetection.ts` (lines 29-43). -/
structure AnalysisResult where
  sentiment : ℚ
  topics : List String
  entities : List String
  credibilityScore : ℚ
  explanation : Explanation
deriving DecidableEq

/-- JavaScript `Math.round`: round half toward positive infinity. -/
def jsRound (q : ℚ) : ℤ := ⌊q + 1/2⌋

/-- JavaScript division of finite operands.  `none` models the non-finite
result (`NaN`, here always from `0 / 0` under the nonnegative-counter
invariant) produced when the divisor is `0`. -/
def jsDiv (a b : ℤ) : Option ℚ := if b = 0 then none else some ((a : ℚ) / (b : ℚ))

def voteTotal (v : Votes) : ℤ := v.credible + v.suspicious + v.fake

/-- The Community Consensus ratio
`story.votes.credible / (credible + suspicious + fake)`
(storyDetection.ts, line 169). -/
def consensusScore (v : Votes) : Option ℚ := jsDiv v.credible (voteTotal v)

/-- String a template literal interpolates for `Math.round(x * 100)` when
`x` may be the non-finite ratio: `Math.round` propagates `NaN` and the
interpolation prints it as the string `NaN`. -/
def roundPctStr : Option ℚ → String
  | none => "NaN"
  | some q => toString (jsRound (q * 100))

/-- Method `generateConclusion` of `StoryDetectionService`
(storyDetection.ts, lines 194-202). -/
def generateConclusion (story : Story) : String :=
  if story.verificationStatus = .fake then
    "This story has been identified as false based on multiple factors including lack of credible sources and contradiction with established facts."
  else if story.verificationStatus = .real then
    "This story has been verified as true with strong evidence and expert consensus."
  else
    "This story is currently under investigation. While some evidence suggests credibility, further verification is needed."

/-- Method `analyzeStoryContent` of `StoryDetectionService`
(storyDetection.ts, lines 146-192).  The `try` wrapper is dead: no
expression in the body throws, so the method always resolves with this
value. -/
def analyzeStoryContent (story : Story) : AnalysisResult :=
  { sentiment := if story.verificationStatus = .fake then -0.8 else 0.6
  , topics := [story.category, "Misinformation", "Fact Checking"]
  , entities := story.region :: story.sources
  , credibilityScore := story.confidence
  , explanation :=
      { factors :=
          [ { name := "Source Reliability"
            , score := some (if story.sources.length > 1 then 0.8 else 0.4)
            , description := "Story has " ++ toString story.sources.length ++ " source"
                ++ (if story.sources.length > 1 then "s" else "") }
          , { name := "Spread Analysis"
            , score := some (1 - story.spread / 100)
            , description := "Story has spread to " ++ toString story.spread
                ++ "% of potential audience" }
          , { name := "Community Consensus"
            , score := consensusScore story.votes
            , description := roundPctStr (consensusScore story.votes)
                ++ "% of voters find it credible" } ]
      , evidence :=
          [ "Verification Status: " ++ statusStr story.verificationStatus
          , "Confidence Score: " ++ toString (jsRound (story.confidence * 100)) ++ "%"
          , "Category: " ++ story.category ]
      , conclusion := generateConclusion story } }

def incVote (v : Votes) : VoteType → Votes
  | .credible => { v with credible := v.credible + 1 }
  | .suspicious => { v with suspicious := v.suspicious + 1 }
  | .fake => { v with fake := v.fake + 1 }

def decVote (v : Votes) : VoteType → Votes
  | .credible => { v with credible := v.credible - 1 }
  | .suspicious => { v with suspicious := v.suspicious - 1 }
  | .fake => { v with fake := v.fake - 1 }

def getVote (v : Votes) : VoteType → ℤ
  | .credible => v.credible
  | .suspicious => v.suspicious
  | .fake => v.fake

/-- Effect of `this.stories.find(s => s.id === storyId)` followed by the
in-place `story.votes[voteType]++`: the first story whose id matches gets
its counter bumped; when none matches, the list is untouched. -/
def bumpFirst : List Story → String → VoteType → List Story
  | [], _, _ => []
  | s :: rest, storyId, voteType =>
      if s.id = storyId then { s with votes := incVote s.votes voteType } :: rest
      else s :: bumpFirst rest storyId voteType

/-- Method `updateStoryVote` of `StoryDetectionService` (storyDetection.ts,
lines 204-218), acting on an explicit store state (the private
`this.stories` list).  The body has no reachable throwing path — the
awaited timeout resolves and a missing story is skipped by the
`if (story)` guard — so the promise always resolves; the `Except` layer
records that the only would-be rejection is the generic rethrown
`Failed to update vote` message of the `catch` block. -/
def updateStoryVote (store : List Story) (storyId : String) (voteType : VoteType) :
    Except String (List Story) :=
  .ok (bumpFirst store storyId voteType)

/-- The slice of `CollaborativeFactChecking` component state that
`handleVote` touches: the `stories` list, the `userVotes` record (the
per-user VoteRecord set, keyed by story id) and the stored `analysis`. -/
structure CompState where
  stories : List Story
  userVotes : List (String × VoteType)
  analysis : Option AnalysisResult
deriving DecidableEq

inductive VoteOutcome where
  | alreadyVoted
  | ok
  | persistFailed
deriving DecidableEq

/-- Removal of a key from the `userVotes` record
(`delete newVotes[storyId]`). -/
def eraseKey (l : List (String × VoteType)) (k : String) : List (String × VoteType) :=
  l.filter fun p => !(p.1 == k)

/-- Handler `handleVote` (CollaborativeFactChecking.tsx, lines 109-163).

Arguments: `st` is the component state as of the render that created the
handler, so every closure read of `stories` or `userVotes` inside the body
sees this snapshot; `store` is the service store; `persistFails` says
whether the awaited `updateStoryVote` call rejects — the only way the
specified persistence failure can reach this handler — and a rejection
happens at the awaited timeout, before the service store is mutated.

Guard: `if (userVotes[storyId]) return;` — the first statement, before the
`try` block, any state update and any service call.

Success path, in source order: the store call; the functional `setStories`
updater that maps over the current stories and bumps `votes[voteType]` on
every story with the matching id; the `setUserVotes` updater that adds the
`storyId ↦ voteType` binding; then `stories.find(s => s.id === storyId)`
on the stale closure snapshot and, when it finds a story, `analyzeStory`,
which overwrites `analysis` with `analyzeStoryContent` of that story.

Catch path: the `setStories` updater decrements `votes[voteType]` on every
story with the matching id, and the `setUserVotes` updater deletes the
`storyId` binding. -/
def handleVote (st : CompState) (store : List Story) (storyId : String)
    (voteType : VoteType) (persistFails : Bool) :
    CompState × List Story × VoteOutcome :=
  match List.lookup storyId st.userVotes with
  | some _ => (st, store, .alreadyVoted)
  | none =>
      if persistFails then
        ({ st with
            stories := st.stories.map fun s =>
              if s.id = storyId then { s with votes := decVote s.votes voteType } else s
          , userVotes := eraseKey st.userVotes storyId }
        , store, .persistFailed)
      else
        let store' := bumpFirst store storyId voteType
        let stories' := st.stories.map fun s =>
          if s.id = storyId then { s with votes := incVote s.votes voteType } else s
        let userVotes' := (storyId, voteType) :: eraseKey st.userVotes storyId
        let analysis' :=
          match st.stories.find? (fun s => s.id == storyId) with
          | some stale => some (analyzeStoryContent stale)
          | none => st.analysis
        ({ stories := stories', userVotes := userVotes', analysis := analysis' }
        , store', .ok)

/-- Concrete story matching the scenario of the spec: sources `[a, b]`,
spread `60`, votes `45 / 20 / 5`. -/
def scenarioStory : Story :=
  { id := "1", title := "Breaking News", description := "A claim.",
    spread := 60, confidence := 0.7, region := "Global", coordinates := (0, 0),
    sources := ["a", "b"], verificationStatus := .investigating,
    dateDetected := "2024-01-01", votes := ⟨45, 20, 5⟩, category := "Science",
    explanation := none }

/-- Concrete story with an empty source list. -/
def noSourceStory : Story := { scenarioStory with sources := [], votes := ⟨1, 0, 0⟩ }

/-- Concrete story with an all-zero tally. -/
def noVotesStory : Story := { scenarioStory with votes := ⟨0, 0, 0⟩ }

/-- Concrete story with a single credible vote. -/
def oneVoteStory : Story := { scenarioStory with votes := ⟨1, 0, 0⟩ }

/-- Spec-side reading of stating the source count with correct English
pluralization, as in the quoted contrast of "1 source" vs "N sources":
the plural suffix appears exactly when the count differs from 1. -/
def specSourceCountText (n : ℕ) : String :=
  "Story has " ++ toString n ++ " source" ++ (if n = 1 then "" else "s")

/-- Boolean test that `p` is a leading segment of `s`. -/
def isPfx : List Char → List Char → Bool
  | [], _ => true
  | _ :: _, [] => false
  | p :: ps, c :: cs => p == c && isPfx ps cs

/-- Boolean test that `pat` occurs contiguously inside the second list. -/
def hasSub (pat : List Char) : List Char → Bool
  | [] => isPfx pat []
  | c :: cs => isPfx pat (c :: cs) || hasSub pat cs

/-- Substring test on strings, used to state which phrases a conclusion
contains. -/
def strContains (s pat : String) : Bool := hasSub pat.data s.data

/-- Concrete story with the scenario id but a distinct id value, for frame
statements about stores holding several stories. -/
def otherStory : Story := { scenarioStory with id := "2", votes := ⟨7, 3, 2⟩ }

/-- Scenario story with a chosen verification status. -/
def withStatus (st : VerificationStatus) : Story :=
  { scenarioStory with verificationStatus := st }

/-- Component state holding the single-credible-vote story, with no vote
cast yet by this user. -/
def freshState : CompState :=
  { stories := [oneVoteStory], userVotes := [], analysis := none }

/-- Component state holding the scenario story, with no vote cast yet. -/
def scenarioState : CompState :=
  { stories := [scenarioStory], userVotes := [], analysis := none }

/-- Component state in which this user already holds a VoteRecord for story
`1`. -/
def votedState : CompState :=
  { stories := [scenarioStory], userVotes := [("1", VoteType.credible)], analysis := none }

lemma factors_map_score (story : Story) :
    (analyzeStoryContent story).explanation.factors.map Factor.score =
      [ some (if story.sources.length > 1 then 0.8 else 0.4)
      , some (1 - story.spread / 100)
      , consensusScore story.votes ] := rfl

lemma factors_map_description (story : Story) :
    (analyzeStoryContent story).explanation.factors.map Factor.description =
      [ "Story has " ++ toString story.sources.length ++ " source"
          ++ (if story.sources.length > 1 then "s" else "")
      , "Story has spread to " ++ toString story.spread ++ "% of potential audience"
      , roundPctStr (consensusScore story.votes) ++ "% of voters find it credible" ] := rfl

lemma consensusScore_eq (v : Votes) (hv : voteTotal v ≠ 0) :
    consensusScore v = some ((v.credible : ℚ) / (voteTotal v : ℚ)) := by
  simp [consensusScore, jsDiv, hv]

/-- C3 counterexample: on a story with an empty source list the Source
Reliability description reads `Story has 0 source`, which is not the
correctly pluralized count (`0 sources`) the claim requires, so the claim
as stated fails at this concrete input. -/
theorem c3_pluralization_counterexample :
    ((analyzeStoryContent noSourceStory).explanation.factors.map Factor.description).head? =
      some "Story has 0 source"
    ∧ "Story has 0 source" ≠ specSourceCountText 0 := by
  exact ⟨rfl, by decide⟩

/-- C3 (amended): for every story whose tally is non-zero, the analysis
carries exactly 3 factors in fixed order — Source Reliability (score `0.8`
when there is more than one source, else `0.4`, description stating the
count with the plural suffix exactly when the count exceeds 1, so zero
sources reads `0 source`), Spread Analysis (score `1 - spread/100`,
description stating the spread percentage), Community Consensus (score
`credible / (credible + suspicious + fake)`, description stating that
ratio as a rounded percentage). -/
theorem c3_computeFactors_amended (story : Story) (hv : voteTotal story.votes ≠ 0) :
    (analyzeStoryContent story).explanation.factors.map Factor.name =
      ["Source Reliability", "Spread Analysis", "Community Consensus"]
    ∧ (analyzeStoryContent story).explanation.factors.map Factor.score =
      [ some (if story.sources.length > 1 then 0.8 else 0.4)
      , some (1 - story.spread / 100)
      , some ((story.votes.credible : ℚ) / (voteTotal story.votes : ℚ)) ]
    ∧ (analyzeStoryContent story).explanation.factors.map Factor.description =
      [ "Story has " ++ toString story.sources.length ++ " source"
          ++ (if story.sources.length > 1 then "s" else "")
      , "Story has spread to " ++ toString story.spread ++ "% of potential audience"
      , toString (jsRound ((story.votes.credible : ℚ) / (voteTotal story.votes : ℚ) * 100))
          ++ "% of voters find it credible" ] := by
  refine ⟨rfl, ?_, ?_⟩
  · rw [factors_map_score, consensusScore_eq _ hv]
  · rw [factors_map_description, consensusScore_eq _ hv, roundPctStr]

/-- Witness for C3 (amended) at the scenario story. -/
theorem c3_computeFactors_amended_witness :
    voteTotal scenarioStory.votes ≠ 0
    ∧ ((analyzeStoryContent scenarioStory).explanation.factors.map Factor.name =
        ["Source Reliability", "Spread Analysis", "Community Consensus"]
      ∧ (analyzeStoryContent scenarioStory).explanation.factors.map Factor.score =
        [ some (if scenarioStory.sources.length > 1 then 0.8 else 0.4)
        , some (1 - scenarioStory.spread / 100)
        , some ((scenarioStory.votes.credible : ℚ) / (voteTotal scenarioStory.votes : ℚ)) ]
      ∧ (analyzeStoryContent scenarioStory).explanation.factors.map Factor.description =
        [ "Story has " ++ toString scenarioStory.sources.length ++ " source"
            ++ (if scenarioStory.sources.length > 1 then "s" else "")
        , "Story has spread to " ++ toString scenarioStory.spread
            ++ "% of potential audience"
        , toString (jsRound
              ((scenarioStory.votes.credible : ℚ) / (voteTotal scenarioStory.votes : ℚ) * 100))
            ++ "% of voters find it credible" ]) :=
  ⟨by decide, c3_computeFactors_amended scenarioStory (by decide)⟩

/-- C4 counterexample: on a story whose three counters are all `0` the
Community Consensus factor has the non-numeric score (the `NaN` ratio,
modelled as `none`) and the description `NaN% of voters find it credible` —
not the score `0` and description `no votes yet` the claim requires. -/
theorem c4_noVotes_counterexample :
    consensusScore noVotesStory.votes = none
    ∧ ((analyzeStoryContent noVotesStory).explanation.factors.map Factor.score).getLast? =
        some none
    ∧ ((analyzeStoryContent noVotesStory).explanation.factors.map Factor.description).getLast? =
        some "NaN% of voters find it credible"
    ∧ some (none : Option ℚ) ≠ some (some (0 : ℚ))
    ∧ "NaN% of voters find it credible" ≠ "no votes yet" := by
  refine ⟨rfl, rfl, rfl, by decide, by decide⟩

/-- C4 (amended): for every story whose three vote counters sum to `0`, the
Community Consensus factor produced by the analysis has the non-numeric
`NaN` score (modelled `none`) and the description
`NaN% of voters find it credible`; the code implements no defined
fallback. -/
theorem c4_noVotes_amended (story : Story) (hv : voteTotal story.votes = 0) :
    ((analyzeStoryContent story).explanation.factors.map Factor.name).getLast? =
      some "Community Consensus"
    ∧ ((analyzeStoryContent story).explanation.factors.map Factor.score).getLast? = some none
    ∧ ((analyzeStoryContent story).explanation.factors.map Factor.description).getLast? =
      some "NaN% of voters find it credible" := by
  have hs : consensusScore story.votes = none := by simp [consensusScore, jsDiv, hv]
  refine ⟨rfl, ?_, ?_⟩
  · have e : ((analyzeStoryContent story).explanation.factors.map Factor.score).getLast? =
        some (consensusScore story.votes) := rfl
    rw [e, hs]
  · have e : ((analyzeStoryContent story).explanation.factors.map Factor.description).getLast? =
        some (roundPctStr (consensusScore story.votes) ++ "% of voters find it credible") := rfl
    rw [e, hs, roundPctStr]
    decide

/-- Witness for C4 (amended) at a story with an all-zero tally. -/
theorem c4_noVotes_amended_witness :
    voteTotal noVotesStory.votes = 0
    ∧ (((analyzeStoryContent noVotesStory).explanation.factors.map Factor.name).getLast? =
        some "Community Consensus"
      ∧ ((analyzeStoryContent noVotesStory).explanation.factors.map Factor.score).getLast? =
        some none
      ∧ ((analyzeStoryContent noVotesStory).explanation.factors.map Factor.description).getLast? =
        some "NaN% of voters find it credible") :=
  ⟨by decide, c4_noVotes_amended noVotesStory (by decide)⟩

/-- C5: `generateConclusion` is a 3-way classification over the 5 statuses —
the conclusion for `fake` (containing `identified as false`) differs from
the one for `debunked`, while `debunked`, `unverified` and `investigating`
all yield the identical under-investigation conclusion (containing
`under investigation`), and `real` yields a conclusion distinct from
both. -/
theorem c5_conclusion_classification (s1 s2 s3 s4 s5 : Story)
    (h1 : s1.verificationStatus = .fake) (h2 : s2.verificationStatus = .debunked)
    (h3 : s3.verificationStatus = .unverified) (h4 : s4.verificationStatus = .investigating)
    (h5 : s5.verificationStatus = .real) :
    generateConclusion s1 ≠ generateConclusion s2
    ∧ generateConclusion s2 = generateConclusion s3
    ∧ generateConclusion s3 = generateConclusion s4
    ∧ generateConclusion s5 ≠ generateConclusion s1
    ∧ generateConclusion s5 ≠ generateConclusion s2
    ∧ strContains (generateConclusion s1) "identified as false" = true
    ∧ strContains (generateConclusion s2) "under investigation" = true
    ∧ strContains (generateConclusion s4) "under investigation" = true := by
  simp only [generateConclusion, h1, h2, h3, h4, h5]
  decide

/-- Witness for C5 at the scenario story under each of the 5 statuses. -/
theorem c5_conclusion_classification_witness :
    (withStatus .fake).verificationStatus = .fake
    ∧ (withStatus .debunked).verificationStatus = .debunked
    ∧ (withStatus .unverified).verificationStatus = .unverified
    ∧ (withStatus .investigating).verificationStatus = .investigating
    ∧ (withStatus .real).verificationStatus = .real
    ∧ (generateConclusion (withStatus .fake) ≠ generateConclusion (withStatus .debunked)
      ∧ generateConclusion (withStatus .debunked) = generateConclusion (withStatus .unverified)
      ∧ generateConclusion (withStatus .unverified) = generateConclusion (withStatus .investigating)
      ∧ generateConclusion (withStatus .real) ≠ generateConclusion (withStatus .fake)
      ∧ generateConclusion (withStatus .real) ≠ generateConclusion (withStatus .debunked)
      ∧ strContains (generateConclusion (withStatus .fake)) "identified as false" = true
      ∧ strContains (generateConclusion (withStatus .debunked)) "under investigation" = true
      ∧ strContains (generateConclusion (withStatus .investigating)) "under investigation" = true) :=
  ⟨rfl, rfl, rfl, rfl, rfl,
    c5_conclusion_classification (withStatus .fake) (withStatus .debunked)
      (withStatus .unverified) (withStatus .investigating) (withStatus .real)
      rfl rfl rfl rfl rfl⟩

/-- C6: for every story the analysis has sentiment `-0.8` when the status is
`fake` and `0.6` otherwise, topics `[category, Misinformation,
Fact Checking]`, entities `[region] ++ sources` in original order,
credibility score equal to `story.confidence`, and evidence consisting of
exactly the 3 fixed-order strings: the verification status label, the
confidence rounded to the nearest integer percentage, and the category
label. -/
theorem c6_analyze_fields (story : Story) :
    (analyzeStoryContent story).sentiment =
        (if story.verificationStatus = .fake then -0.8 else 0.6)
    ∧ (analyzeStoryContent story).topics = [story.category, "Misinformation", "Fact Checking"]
    ∧ (analyzeStoryContent story).entities = story.region :: story.sources
    ∧ (analyzeStoryContent story).credibilityScore = story.confidence
    ∧ (analyzeStoryContent story).explanation.evidence =
        [ "Verification Status: " ++ statusStr story.verificationStatus
        , "Confidence Score: " ++ toString (jsRound (story.confidence * 100)) ++ "%"
        , "Category: " ++ story.category ] :=
  ⟨rfl, rfl, rfl, rfl, rfl⟩

/-- C1 evidence: `handleVote` applies the optimistic increment only after
the persistence call succeeds, yet its catch block still decrements, so a
persistence failure leaves `votes[choice]` one below its prior value
instead of restoring it.  At the scenario story (tally `45/20/5`) a failed
credible vote lands in the catch branch and leaves the tally `44/20/5`,
not the prior `45/20/5`; the tentative VoteRecord removal is a no-op as
the record was never inserted. -/
theorem c1_rollback_bug :
    (handleVote scenarioState [scenarioStory] "1" VoteType.credible true).2.2 =
      VoteOutcome.persistFailed
    ∧ scenarioStory.votes = ⟨45, 20, 5⟩
    ∧ (handleVote scenarioState [scenarioStory] "1" VoteType.credible true).1.stories.map
        Story.votes = [⟨44, 20, 5⟩]
    ∧ (⟨44, 20, 5⟩ : Votes) ≠ ⟨45, 20, 5⟩
    ∧ (handleVote scenarioState [scenarioStory] "1" VoteType.credible true).1.userVotes = [] :=
  ⟨rfl, rfl, rfl, by decide, rfl⟩

/-- C2: whenever a VoteRecord for the story already exists in `userVotes`,
`handleVote` rejects through its guard — the first statement of the
handler, before any state mutation or store access — leaving the component
state and the service store exactly as they were and signalling the
already-voted outcome. -/
theorem c2_alreadyVoted (st : CompState) (store : List Story) (storyId : String)
    (voteType : VoteType) (persistFails : Bool) (prior : VoteType)
    (h : List.lookup storyId st.userVotes = some prior) :
    handleVote st store storyId voteType persistFails = (st, store, .alreadyVoted) := by
  unfold handleVote
  rw [h]

/-- Witness for C2: a second vote on story `1` after a credible VoteRecord
was committed. -/
theorem c2_alreadyVoted_witness :
    List.lookup "1" votedState.userVotes = some VoteType.credible
    ∧ handleVote votedState [scenarioStory] "1" VoteType.fake false =
        (votedState, [scenarioStory], .alreadyVoted) :=
  ⟨rfl, c2_alreadyVoted votedState [scenarioStory] "1" VoteType.fake false VoteType.credible rfl⟩

/-- C7 evidence: after a successful vote, `handleVote` re-analyzes the
story found in the stale closure snapshot of `stories`, not the post-vote
story.  Starting from a single story with tally `1/0/0` and casting a
successful suspicious vote, the stored tally becomes `1/1/0`, yet the
stored analysis is `analyzeStoryContent` of the pre-vote story, whose
Community Consensus is `1/1 = 1` — not the `1/2` consensus of the
post-vote story — so the re-analysis does not reflect the new vote. -/
theorem c7_stale_reanalysis_bug :
    (handleVote freshState [oneVoteStory] "1" VoteType.suspicious false).2.2 = VoteOutcome.ok
    ∧ (handleVote freshState [oneVoteStory] "1" VoteType.suspicious false).1.stories.map
        Story.votes = [⟨1, 1, 0⟩]
    ∧ (handleVote freshState [oneVoteStory] "1" VoteType.suspicious false).1.analysis =
        some (analyzeStoryContent oneVoteStory)
    ∧ ((analyzeStoryContent oneVoteStory).explanation.factors.map Factor.score).getLast? =
        some (some 1)
    ∧ ((analyzeStoryContent { oneVoteStory with votes := ⟨1, 1, 0⟩ }).explanation.factors.map
        Factor.score).getLast? = some (some (1/2))
    ∧ analyzeStoryContent oneVoteStory ≠
        analyzeStoryContent { oneVoteStory with votes := ⟨1, 1, 0⟩ } := by
  have e1 : ((analyzeStoryContent oneVoteStory).explanation.factors.map Factor.score).getLast? =
      some (consensusScore (⟨1, 0, 0⟩ : Votes)) := rfl
  have e2 : ((analyzeStoryContent { oneVoteStory with votes := ⟨1, 1, 0⟩ }).explanation.factors.map
      Factor.score).getLast? = some (consensusScore (⟨1, 1, 0⟩ : Votes)) := rfl
  have h1 : ((analyzeStoryContent oneVoteStory).explanation.factors.map Factor.score).getLast? =
      some (some 1) := by
    rw [e1]; norm_num [consensusScore, jsDiv, voteTotal]
  have h2 : ((analyzeStoryContent { oneVoteStory with votes := ⟨1, 1, 0⟩ }).explanation.factors.map
      Factor.score).getLast? = some (some (1/2)) := by
    rw [e2]; norm_num [consensusScore, jsDiv, voteTotal]
  refine ⟨rfl, rfl, rfl, h1, h2, ?_⟩
  intro h
  have hc := congrArg (fun r => (r.explanation.factors.map Factor.score).getLast?) h
  simp only [h1, h2] at hc
  have : (1 : ℚ) = 1/2 := Option.some.inj (Option.some.inj hc)
  norm_num at this

lemma consensus_ratio_nonneg (v : Votes) (hc : 0 ≤ v.credible) (ht : 0 < voteTotal v) :
    0 ≤ (v.credible : ℚ) / (voteTotal v : ℚ) := by
  apply div_nonneg
  · exact_mod_cast hc
  · exact_mod_cast ht.le

lemma consensus_ratio_le_one (v : Votes) (hs : 0 ≤ v.suspicious) (hf : 0 ≤ v.fake)
    (ht : 0 < voteTotal v) :
    (v.credible : ℚ) / (voteTotal v : ℚ) ≤ 1 := by
  rw [div_le_one (by exact_mod_cast ht)]
  have : v.credible ≤ voteTotal v := by
    simp only [voteTotal]
    linarith
  exact_mod_cast this

/-- C8: for every story with nonnegative counters and a positive total, the
Community Consensus score is the ratio `credible / total` and lies in
`[0, 1]`; and at the scenario story (`sources = [a, b]`, `spread = 60`,
votes `45/20/5`) the three scores are `0.8`, `0.4` and `45/70` — whose
3-decimal rounding is `0.643` — with consensus description stating the
rounded `64%`. -/
theorem c8_consensus_bound_and_scenario (story : Story)
    (hc : 0 ≤ story.votes.credible) (hs : 0 ≤ story.votes.suspicious)
    (hf : 0 ≤ story.votes.fake) (ht : 0 < voteTotal story.votes) :
    (((analyzeStoryContent story).explanation.factors.map Factor.score).getLast? =
        some (some ((story.votes.credible : ℚ) / (voteTotal story.votes : ℚ)))
      ∧ 0 ≤ (story.votes.credible : ℚ) / (voteTotal story.votes : ℚ)
      ∧ (story.votes.credible : ℚ) / (voteTotal story.votes : ℚ) ≤ 1)
    ∧ (analyzeStoryContent scenarioStory).explanation.factors.map Factor.score =
        [some 0.8, some 0.4, some (45/70)]
    ∧ jsRound ((45/70 : ℚ) * 1000) = 643
    ∧ ((analyzeStoryContent scenarioStory).explanation.factors.map Factor.description).getLast? =
        some "64% of voters find it credible" := by
  have escore : ((analyzeStoryContent story).explanation.factors.map Factor.score).getLast? =
      some (consensusScore story.votes) := rfl
  have hcons : consensusScore (⟨45, 20, 5⟩ : Votes) = some (45/70 : ℚ) := by
    norm_num [consensusScore, jsDiv, voteTotal]
  refine ⟨⟨?_, consensus_ratio_nonneg _ hc ht, consensus_ratio_le_one _ hs hf ht⟩, ?_, ?_, ?_⟩
  · rw [escore, consensusScore_eq _ ht.ne']
  · rw [factors_map_score]
    refine congrArg₂ _ (by norm_num [scenarioStory]) (congrArg₂ _ (by norm_num [scenarioStory]) ?_)
    exact congrArg₂ _ hcons rfl
  · show (⌊(45/70 : ℚ) * 1000 + 1/2⌋ : ℤ) = 643
    rw [Int.floor_eq_iff]
    norm_num
  · have edesc : ((analyzeStoryContent scenarioStory).explanation.factors.map
        Factor.description).getLast? =
        some (roundPctStr (consensusScore (⟨45, 20, 5⟩ : Votes))
          ++ "% of voters find it credible") := rfl
    have h64 : jsRound ((45/70 : ℚ) * 100) = 64 := by
      show (⌊(45/70 : ℚ) * 100 + 1/2⌋ : ℤ) = 64
      rw [Int.floor_eq_iff]
      norm_num
    rw [edesc, hcons, roundPctStr, h64]
    decide

/-- Witness for C8 at the scenario story. -/
theorem c8_consensus_bound_and_scenario_witness :
    (0 ≤ scenarioStory.votes.credible ∧ 0 ≤ scenarioStory.votes.suspicious
      ∧ 0 ≤ scenarioStory.votes.fake ∧ 0 < voteTotal scenarioStory.votes)
    ∧ ((((analyzeStoryContent scenarioStory).explanation.factors.map Factor.score).getLast? =
        some (some ((scenarioStory.votes.credible : ℚ) / (voteTotal scenarioStory.votes : ℚ)))
      ∧ 0 ≤ (scenarioStory.votes.credible : ℚ) / (voteTotal scenarioStory.votes : ℚ)
      ∧ (scenarioStory.votes.credible : ℚ) / (voteTotal scenarioStory.votes : ℚ) ≤ 1)
    ∧ (analyzeStoryContent scenarioStory).explanation.factors.map Factor.score =
        [some 0.8, some 0.4, some (45/70)]
    ∧ jsRound ((45/70 : ℚ) * 1000) = 643
    ∧ ((analyzeStoryContent scenarioStory).explanation.factors.map Factor.description).getLast? =
        some "64% of voters find it credible") :=
  ⟨⟨by decide, by decide, by decide, by decide⟩,
    c8_consensus_bound_and_scenario scenarioStory (by decide) (by decide) (by decide) (by decide)⟩

lemma bumpFirst_missing : ∀ (store : List Story) (storyId : String) (voteType : VoteType),
    (∀ s ∈ store, s.id ≠ storyId) → bumpFirst store storyId voteType = store
  | [], _, _, _ => rfl
  | a :: rest, storyId, voteType, h => by
      have ha : a.id ≠ storyId := h a (List.mem_cons_self a rest)
      simp only [bumpFirst, if_neg ha]
      exact congrArg (a :: ·)
        (bumpFirst_missing rest storyId voteType fun s hs => h s (List.mem_cons_of_mem a hs))

/-- C9 counterexample: a vote for story id `2` against a store containing
only story id `1` completes successfully (the promise resolves, modelled
`Except.ok`) with the store unchanged — the code has no NotFound error to
return: the missing story is silently skipped. -/
theorem c9_missing_story_counterexample :
    updateStoryVote [scenarioStory] "2" VoteType.credible = .ok [scenarioStory] := rfl

/-- C9 (amended): for every store and storyId carried by no story in it,
`updateStoryVote` completes successfully with the store unchanged; no
NotFound error exists in the code and nothing is propagated. -/
theorem c9_missing_story_amended (store : List Story) (storyId : String) (voteType : VoteType)
    (h : ∀ s ∈ store, s.id ≠ storyId) :
    updateStoryVote store storyId voteType = .ok store := by
  rw [updateStoryVote, bumpFirst_missing store storyId voteType h]

/-- Witness for C9 (amended): story id `3` is absent from a two-story
store. -/
theorem c9_missing_story_amended_witness :
    (∀ s ∈ [scenarioStory, otherStory], s.id ≠ "3")
    ∧ updateStoryVote [scenarioStory, otherStory] "3" VoteType.fake =
        .ok [scenarioStory, otherStory] :=
  ⟨by decide, c9_missing_story_amended [scenarioStory, otherStory] "3" VoteType.fake (by decide)⟩

lemma bumpFirst_at : ∀ (pre : List Story) (post : List Story) (s : Story) (voteType : VoteType),
    (∀ t ∈ pre, t.id ≠ s.id) →
    bumpFirst (pre ++ s :: post) s.id voteType =
      pre ++ { s with votes := incVote s.votes voteType } :: post
  | [], post, s, voteType, _ => by simp [bumpFirst]
  | a :: rest, post, s, voteType, hpre => by
      have ha : a.id ≠ s.id := hpre a (List.mem_cons_self a rest)
      simp only [List.cons_append, bumpFirst, if_neg ha]
      exact congrArg (a :: ·)
        (bumpFirst_at rest post s voteType fun t ht => hpre t (List.mem_cons_of_mem a ht))

/-- C10: a completed `updateStoryVote` for a story present in the store
mutates exactly one field — the first story whose id matches keeps every
other field and every other story of the store verbatim (the stores before
and after differ only by the record update of that one story), its chosen
counter is incremented by exactly 1, and its other two counters are
unchanged. -/
theorem c10_updateStoryVote_frame (pre post : List Story) (s : Story) (voteType : VoteType)
    (hpre : ∀ t ∈ pre, t.id ≠ s.id) :
    updateStoryVote (pre ++ s :: post) s.id voteType =
      .ok (pre ++ { s with votes := incVote s.votes voteType } :: post)
    ∧ getVote (incVote s.votes voteType) voteType = getVote s.votes voteType + 1
    ∧ (∀ other : VoteType, other ≠ voteType →
        getVote (incVote s.votes voteType) other = getVote s.votes other) := by
  refine ⟨?_, ?_, ?_⟩
  · rw [updateStoryVote, bumpFirst_at pre post s voteType hpre]
  · cases voteType <;> simp [incVote, getVote]
  · intro other hne
    cases voteType <;> cases other <;> simp_all [incVote, getVote]

/-- Witness for C10: a credible-vote update on story id `1` sitting after
story id `2` in the store. -/
theorem c10_updateStoryVote_frame_witness :
    (∀ t ∈ [otherStory], t.id ≠ scenarioStory.id)
    ∧ updateStoryVote ([otherStory] ++ scenarioStory :: []) scenarioStory.id VoteType.credible =
        .ok ([otherStory] ++
          { scenarioStory with votes := incVote scenarioStory.votes VoteType.credible } :: [])
    ∧ getVote (incVote scenarioStory.votes VoteType.credible) VoteType.credible =
        getVote scenarioStory.votes VoteType.credible + 1
    ∧ getVote (incVote scenarioStory.votes VoteType.credible) VoteType.suspicious =
        getVote scenarioStory.votes VoteType.suspicious
    ∧ getVote (incVote scenarioStory.votes VoteType.credible) VoteType.fake =
        getVote scenarioStory.votes VoteType.fake :=
  ⟨by decide,
    (c10_updateStoryVote_frame [otherStory] [] scenarioStory VoteType.credible (by decide)).1,
    (c10_updateStoryVote_frame [otherStory] [] scenarioStory VoteType.credible (by decide)).2.1,
    (c10_updateStoryVote_frame [otherStory] [] scenarioStory VoteType.credible
      (by decide)).2.2 VoteType.suspicious (by decide),
    (c10_updateStoryVote_frame [otherStory] [] scenarioStory VoteType.credible
      (by decide)).2.2 VoteType.fake (by decide)⟩
